import Mathlib

/-!
Verification of the scheduling core: the priority-to-deadline mapper
(packages/react-reconciler/src/ReactFiberExpirationTime.js) and the
host-callback driver (packages/scheduler/src/forks/SchedulerHostConfig.default.js).

Times and JS numbers are modelled as rationals; the JS bitwise-or-zero
idiom (ToInt32) is modelled exactly: truncation toward zero followed by a
wrap into the signed 32-bit range.  The driver's module-level mutable
variables become the fields of an explicit state record, and each event
handler becomes a state-transition function returning the new state
together with what the handler did (which callback it invoked, what it
posted or armed).
-/

set_option linter.unusedVariables false

namespace ReactFiberExpirationTime

/-- Modelled from the spec: the priority levels imported from
SchedulerWithReactIntegration, a module that is not among the sources.
The spec describes an ordered enumeration of the four levels
Immediate, UserBlocking, Normal, Idle. -/
inductive ReactPriorityLevel where
  | immediate
  | userBlocking
  | normal
  | idle
deriving DecidableEq

def ImmediatePriority : ReactPriorityLevel := ReactPriorityLevel.immediate

def UserBlockingPriority : ReactPriorityLevel := ReactPriorityLevel.userBlocking

def NormalPriority : ReactPriorityLevel := ReactPriorityLevel.normal

def IdlePriority : ReactPriorityLevel := ReactPriorityLevel.idle

/-- Modelled from the spec: the constant imported from maxSigned31BitInt, a
module that is not among the sources.  Its name fixes its value, the largest
signed 31-bit integer 2^30 - 1 = 1073741823; the spec calls the scale anchor
derived from it MAGIC_OFFSET. -/
def MAX_SIGNED_31_BIT_INT : ℚ := 1073741823

def NoWork : ℚ := 0

def Never : ℚ := 1

def Sync : ℚ := MAX_SIGNED_31_BIT_INT

def Batched : ℚ := Sync - 1

def UNIT_SIZE : ℚ := 10

def MAGIC_NUMBER_OFFSET : ℚ := Batched - 1

/-- The JS expression x | 0 (ToInt32 applied to a finite number): truncate
toward zero, then wrap into the signed 32-bit range. -/
def jsBitOrZero (q : ℚ) : ℤ :=
  (((if 0 ≤ q then ⌊q⌋ else -⌊-q⌋) + 2 ^ 31) % 2 ^ 32) - 2 ^ 31

/-- msToExpirationTime from the source: MAGIC_NUMBER_OFFSET - ((ms / UNIT_SIZE) | 0). -/
def msToExpirationTime (ms : ℚ) : ℚ :=
  MAGIC_NUMBER_OFFSET - (jsBitOrZero (ms / UNIT_SIZE) : ℚ)

/-- expirationTimeToMs from the source. -/
def expirationTimeToMs (expirationTime : ℚ) : ℚ :=
  (MAGIC_NUMBER_OFFSET - expirationTime) * UNIT_SIZE

/-- ceiling from the source: (((num / precision) | 0) + 1) * precision. -/
def ceiling (num precision : ℚ) : ℚ :=
  ((jsBitOrZero (num / precision) : ℚ) + 1) * precision

/-- computeExpirationBucket from the source. -/
def computeExpirationBucket (currentTime expirationInMs bucketSizeMs : ℚ) : ℚ :=
  MAGIC_NUMBER_OFFSET -
    ceiling (MAGIC_NUMBER_OFFSET - currentTime + expirationInMs / UNIT_SIZE)
      (bucketSizeMs / UNIT_SIZE)

def LOW_PRIORITY_EXPIRATION : ℚ := 5000

def LOW_PRIORITY_BATCH_SIZE : ℚ := 250

def computeAsyncExpiration (currentTime : ℚ) : ℚ :=
  computeExpirationBucket currentTime LOW_PRIORITY_EXPIRATION LOW_PRIORITY_BATCH_SIZE

/-- HIGH_PRIORITY_EXPIRATION is 500 when the DEV flag is set and 150 in
production, so the definition carries the flag as a parameter. -/
def HIGH_PRIORITY_EXPIRATION (dev : Bool) : ℚ := if dev then 500 else 150

def HIGH_PRIORITY_BATCH_SIZE : ℚ := 100

def computeInteractiveExpiration (dev : Bool) (currentTime : ℚ) : ℚ :=
  computeExpirationBucket currentTime (HIGH_PRIORITY_EXPIRATION dev) HIGH_PRIORITY_BATCH_SIZE

def inferPriorityFromExpirationTime (dev : Bool) (currentTime expirationTime : ℚ) :
    ReactPriorityLevel :=
  if expirationTime = Sync then ImmediatePriority
  else if expirationTime = Never then IdlePriority
  else
    let msUntil := expirationTimeToMs expirationTime - expirationTimeToMs currentTime
    if msUntil ≤ 0 then ImmediatePriority
    else if msUntil ≤ HIGH_PRIORITY_EXPIRATION dev + HIGH_PRIORITY_BATCH_SIZE then
      UserBlockingPriority
    else if msUntil ≤ LOW_PRIORITY_EXPIRATION + LOW_PRIORITY_BATCH_SIZE then NormalPriority
    else IdlePriority

/-- The ceiling formula exactly as the spec words it, with the mathematical
floor in place of the source's 32-bit truncation; kept side by side with
`ceiling` so the two can be compared. -/
def ceilingSpec (num precision : ℚ) : ℚ :=
  ((⌊num / precision⌋ : ℚ) + 1) * precision

/-- computeExpirationBucket exactly as the spec words it, built on `ceilingSpec`. -/
def computeExpirationBucketSpec (currentTime expirationInMs bucketSizeMs : ℚ) : ℚ :=
  MAGIC_NUMBER_OFFSET -
    ceilingSpec (MAGIC_NUMBER_OFFSET - currentTime + expirationInMs / UNIT_SIZE)
      (bucketSizeMs / UNIT_SIZE)

end ReactFiberExpirationTime

namespace SchedulerHostConfig

/-- The module-level mutable variables of the browser (frame-negotiation)
branch of SchedulerHostConfig.default.js, gathered into one state record.
The callback type is an abstract parameter C. -/
structure HostState (C : Type) where
  scheduledHostCallback : Option C
  isMessageEventScheduled : Bool
  timeoutTime : ℚ
  isAnimationFrameScheduled : Bool
  isFlushingHostCallback : Bool
  frameDeadline : ℚ
  previousFrameTime : ℚ
  activeFrameTime : ℚ
  fpsLocked : Bool
deriving DecidableEq

/-- The initial values the module gives its variables. -/
def initialState (C : Type) : HostState C :=
  { scheduledHostCallback := none
    isMessageEventScheduled := false
    timeoutTime := -1
    isAnimationFrameScheduled := false
    isFlushingHostCallback := false
    frameDeadline := 0
    previousFrameTime := 33
    activeFrameTime := 33
    fpsLocked := false }

/-- shouldYieldToHost from the source: frameDeadline <= getCurrentTime().
The clock read is the explicit argument currentTime. -/
def shouldYieldToHost (s : HostState C) (currentTime : ℚ) : Bool :=
  decide (s.frameDeadline ≤ currentTime)

/-- forceFrameRate from the source.  An out-of-range fps only logs a
diagnostic and returns, leaving the state as it was. -/
def forceFrameRate (s : HostState C) (fps : ℚ) : HostState C :=
  if fps < 0 ∨ 125 < fps then s
  else if 0 < fps then
    { s with activeFrameTime := (⌊1000 / fps⌋ : ℚ), fpsLocked := true }
  else
    { s with activeFrameTime := 33, fpsLocked := false }

deriving instance DecidableEq for Except

/-- What one firing of the channel.port1.onmessage handler did: invoked the
callback (carrying the didTimeout flag it passed and the callback's own
outcome, where Except.error stands for a thrown exception), or exited
without invoking it after restoring the pending state, or found no callback. -/
inductive TickOutcome (C : Type) where
  | invoked (cb : C) (didTimeout : Bool) (result : Except Unit Unit)
  | deferred
  | idle
deriving DecidableEq

/-- channel.port1.onmessage from the source.  inv gives each callback's
behaviour when invoked; currentTime is the getCurrentTime() read.  The
source's early return (no time left and the timeout has not passed) is the
first branch; otherwise didTimeout is exactly "no time left", and the
callback, if any, is invoked under the isFlushingHostCallback guard, which
a try/finally clears again on every exit path. -/
def portOnMessage (inv : C → Bool → Except Unit Unit) (s0 : HostState C)
    (currentTime : ℚ) : HostState C × TickOutcome C :=
  let s := { s0 with isMessageEventScheduled := false }
  let prevScheduledCallback := s.scheduledHostCallback
  let prevTimeoutTime := s.timeoutTime
  let s := { s with scheduledHostCallback := none, timeoutTime := -1 }
  if s.frameDeadline - currentTime ≤ 0 ∧
      ¬(prevTimeoutTime ≠ -1 ∧ prevTimeoutTime ≤ currentTime) then
    let s := if s.isAnimationFrameScheduled then s
      else { s with isAnimationFrameScheduled := true }
    ({ s with
        scheduledHostCallback := prevScheduledCallback
        timeoutTime := prevTimeoutTime }, TickOutcome.deferred)
  else
    let didTimeout := decide (s.frameDeadline - currentTime ≤ 0)
    match prevScheduledCallback with
    | some cb =>
      ({ s with isFlushingHostCallback := false },
        TickOutcome.invoked cb didTimeout (inv cb didTimeout))
    | none => (s, TickOutcome.idle)

/-- animationTick from the source.  rafTime is the frame's timestamp.  The
Bool part records whether port.postMessage was called.  When a callback is
pending the source immediately re-requests the animation frame, which keeps
isAnimationFrameScheduled as it is; when nothing is pending the flag is
cleared and the handler exits. -/
def animationTick (s0 : HostState C) (rafTime : ℚ) : HostState C × Bool :=
  match s0.scheduledHostCallback with
  | none => ({ s0 with isAnimationFrameScheduled := false }, false)
  | some _ =>
    let nextFrameTime := rafTime - s0.frameDeadline + s0.activeFrameTime
    let s1 :=
      if nextFrameTime < s0.activeFrameTime ∧ s0.previousFrameTime < s0.activeFrameTime ∧
          ¬s0.fpsLocked then
        let nextFrameTime := if nextFrameTime < 8 then (8 : ℚ) else nextFrameTime
        { s0 with activeFrameTime :=
            if nextFrameTime < s0.previousFrameTime then s0.previousFrameTime
            else nextFrameTime }
      else
        { s0 with previousFrameTime := nextFrameTime }
    let s2 := { s1 with frameDeadline := rafTime + s1.activeFrameTime }
    if s2.isMessageEventScheduled then (s2, false)
    else ({ s2 with isMessageEventScheduled := true }, true)

/-- requestHostCallback from the source (browser branch).  The Bool part
records whether port.postMessage was called (the ASAP path); otherwise an
animation frame is requested if none is pending. -/
def requestHostCallback (s0 : HostState C) (callback : C) (absoluteTimeout : ℚ) :
    HostState C × Bool :=
  let s := { s0 with
    scheduledHostCallback := some callback
    timeoutTime := absoluteTimeout }
  if s.isFlushingHostCallback ∨ absoluteTimeout < 0 then (s, true)
  else if ¬s.isAnimationFrameScheduled then
    ({ s with isAnimationFrameScheduled := true }, false)
  else (s, false)

/-- cancelHostCallback from the source (browser branch). -/
def cancelHostCallback (s : HostState C) : HostState C :=
  { s with
    scheduledHostCallback := none
    isMessageEventScheduled := false
    timeoutTime := -1 }

end SchedulerHostConfig

namespace SchedulerFallback

/-- A timer the fallback (non-DOM) branch arms with setTimeout(..., 0):
either the deferred re-registration setTimeout(requestHostCallback, 0, cb),
which re-invokes requestHostCallback with only the callback argument (the
timeout argument of the dropped registration is not forwarded, hence none),
or setTimeout(_flushCallback, 0, false). -/
inductive FallbackTimer (C : Type) where
  | reRegister (cb : C) (ms : Option ℚ)
  | flush (didTimeout : Bool)
deriving DecidableEq

/-- _flushCallback from the source (fallback branch).  The state is the
_callback variable; the try/finally clears it even when the callback
throws, so the second component reports which callback ran and its outcome
while the state is none on every exit path that invoked it. -/
def _flushCallback (inv : C → Bool → Except Unit Unit) (s : Option C)
    (didTimeout : Bool) : Option C × Option (C × Except Unit Unit) :=
  match s with
  | some cb => (none, some (cb, inv cb didTimeout))
  | none => (none, none)

/-- requestHostCallback from the source (fallback branch).  ms is the
timeout argument, none when the caller passed no second argument.  When a
callback is already stored the call only arms the deferred re-registration
timer and leaves the stored callback in place; note the re-registration
carries none for ms whatever ms was. -/
def requestHostCallback (s : Option C) (cb : C) (ms : Option ℚ) :
    Option C × FallbackTimer C :=
  match s with
  | some c => (some c, FallbackTimer.reRegister cb none)
  | none => (some cb, FallbackTimer.flush false)

/-- cancelHostCallback from the source (fallback branch). -/
def cancelHostCallback (s : Option C) : Option C := none

/-- shouldYieldToHost from the source (fallback branch): constantly false. -/
def shouldYieldToHost : Bool := false

/-- forceFrameRate from the source (fallback branch): a no-op. -/
def forceFrameRate (s : Option C) (fps : ℚ) : Option C := s

end SchedulerFallback

namespace ReactFiberExpirationTime

theorem UNIT_SIZE_eq : UNIT_SIZE = 10 := rfl

theorem HIGH_PRIORITY_BATCH_SIZE_eq : HIGH_PRIORITY_BATCH_SIZE = 100 := rfl

theorem LOW_PRIORITY_EXPIRATION_eq : LOW_PRIORITY_EXPIRATION = 5000 := rfl

theorem LOW_PRIORITY_BATCH_SIZE_eq : LOW_PRIORITY_BATCH_SIZE = 250 := rfl

theorem MAGIC_NUMBER_OFFSET_eq : MAGIC_NUMBER_OFFSET = 1073741821 := by
  norm_num [MAGIC_NUMBER_OFFSET, Batched, Sync, MAX_SIGNED_31_BIT_INT]

theorem Sync_eq : Sync = 1073741823 := by
  norm_num [Sync, MAX_SIGNED_31_BIT_INT]

/-- On a nonnegative argument below 2^31 the JS or-zero idiom is the floor:
truncation toward zero agrees with the floor, and no 32-bit wrap occurs. -/
theorem jsBitOrZero_eq_floor (q : ℚ) (h0 : 0 ≤ q) (h1 : q < 2 ^ 31) :
    jsBitOrZero q = ⌊q⌋ := by
  unfold jsBitOrZero
  rw [if_pos h0]
  have hf0 : 0 ≤ ⌊q⌋ := Int.floor_nonneg.mpr h0
  have hf1 : ⌊q⌋ < 2 ^ 31 := Int.floor_lt.mpr (by exact_mod_cast h1)
  rw [Int.emod_eq_of_lt (by omega) (by omega)]
  omega

/-- In range, the source's ceiling rounds strictly up to the next multiple of
the precision: the result exceeds num by at most the precision, and it is
(f + 1) * precision for the nonnegative integer f = floor (num / precision). -/
theorem ceiling_bounds (num p : ℚ) (hp : 0 < p) (h0 : 0 ≤ num)
    (h31 : num / p < 2 ^ 31) :
    num < ceiling num p ∧ ceiling num p ≤ num + p ∧
      ∃ f : ℤ, 0 ≤ f ∧ ceiling num p = ((f : ℚ) + 1) * p := by
  have harg0 : 0 ≤ num / p := div_nonneg h0 hp.le
  have hfl := jsBitOrZero_eq_floor _ harg0 h31
  have hle : (⌊num / p⌋ : ℚ) ≤ num / p := Int.floor_le _
  have hlt : num / p < (⌊num / p⌋ : ℚ) + 1 := Int.lt_floor_add_one _
  have h1 : (⌊num / p⌋ : ℚ) * p ≤ num := (le_div_iff₀ hp).mp hle
  have h2 : num < ((⌊num / p⌋ : ℚ) + 1) * p := (div_lt_iff₀ hp).mp hlt
  refine ⟨?_, ?_, ⌊num / p⌋, Int.floor_nonneg.mpr harg0, ?_⟩
  · rw [ceiling, hfl]; exact h2
  · rw [ceiling, hfl]; nlinarith [h1]
  · rw [ceiling, hfl]

/-- The milliseconds until a bucketed expiration: strictly more than the
requested timeout and at most one bucket more, and the bucket value itself
is the magic offset minus a positive multiple of the bucket's precision. -/
theorem msUntil_of_bucket (ct T Bq : ℚ) (hB : 0 < Bq)
    (h0 : 0 ≤ MAGIC_NUMBER_OFFSET - ct + T / UNIT_SIZE)
    (h31 : (MAGIC_NUMBER_OFFSET - ct + T / UNIT_SIZE) / (Bq / UNIT_SIZE) < 2 ^ 31) :
    (T < expirationTimeToMs (computeExpirationBucket ct T Bq) - expirationTimeToMs ct ∧
      expirationTimeToMs (computeExpirationBucket ct T Bq) - expirationTimeToMs ct ≤ T + Bq) ∧
    ∃ f : ℤ, 0 ≤ f ∧
      computeExpirationBucket ct T Bq
        = MAGIC_NUMBER_OFFSET - ((f : ℚ) + 1) * (Bq / UNIT_SIZE) := by
  have hU : (0 : ℚ) < UNIT_SIZE := by rw [UNIT_SIZE_eq]; norm_num
  have hp : 0 < Bq / UNIT_SIZE := div_pos hB hU
  obtain ⟨hc1, hc2, f, hf0, hceq⟩ :=
    ceiling_bounds (MAGIC_NUMBER_OFFSET - ct + T / UNIT_SIZE) (Bq / UNIT_SIZE) hp h0 h31
  have hb : computeExpirationBucket ct T Bq
      = MAGIC_NUMBER_OFFSET -
        ceiling (MAGIC_NUMBER_OFFSET - ct + T / UNIT_SIZE) (Bq / UNIT_SIZE) := rfl
  refine ⟨⟨?_, ?_⟩, f, hf0, by rw [hb, hceq]⟩
  · rw [hb, expirationTimeToMs, expirationTimeToMs, UNIT_SIZE_eq] at *
    linarith
  · rw [hb, expirationTimeToMs, expirationTimeToMs, UNIT_SIZE_eq] at *
    linarith

/-- With the two sentinels ruled out, inferPriorityFromExpirationTime is the
three-way comparison on the milliseconds until expiration. -/
theorem inferPriority_eval (dev : Bool) (ct e : ℚ) (hS : e ≠ Sync) (hN : e ≠ Never) :
    inferPriorityFromExpirationTime dev ct e =
      (if expirationTimeToMs e - expirationTimeToMs ct ≤ 0 then ImmediatePriority
       else if expirationTimeToMs e - expirationTimeToMs ct
          ≤ HIGH_PRIORITY_EXPIRATION dev + HIGH_PRIORITY_BATCH_SIZE then UserBlockingPriority
       else if expirationTimeToMs e - expirationTimeToMs ct
          ≤ LOW_PRIORITY_EXPIRATION + LOW_PRIORITY_BATCH_SIZE then NormalPriority
       else IdlePriority) := by
  unfold inferPriorityFromExpirationTime
  rw [if_neg hS, if_neg hN]

theorem inferPriority_userBlocking_of (dev : Bool) (ct e : ℚ)
    (hS : e ≠ Sync) (hN : e ≠ Never)
    (hpos : 0 < expirationTimeToMs e - expirationTimeToMs ct)
    (hub : expirationTimeToMs e - expirationTimeToMs ct
      ≤ HIGH_PRIORITY_EXPIRATION dev + HIGH_PRIORITY_BATCH_SIZE) :
    inferPriorityFromExpirationTime dev ct e = UserBlockingPriority := by
  rw [inferPriority_eval dev ct e hS hN, if_neg (not_le.mpr hpos), if_pos hub]

theorem inferPriority_normal_of (dev : Bool) (ct e : ℚ)
    (hS : e ≠ Sync) (hN : e ≠ Never)
    (hlb : ¬ expirationTimeToMs e - expirationTimeToMs ct
      ≤ HIGH_PRIORITY_EXPIRATION dev + HIGH_PRIORITY_BATCH_SIZE)
    (hpos : 0 < expirationTimeToMs e - expirationTimeToMs ct)
    (hub : expirationTimeToMs e - expirationTimeToMs ct
      ≤ LOW_PRIORITY_EXPIRATION + LOW_PRIORITY_BATCH_SIZE) :
    inferPriorityFromExpirationTime dev ct e = NormalPriority := by
  rw [inferPriority_eval dev ct e hS hN, if_neg (not_le.mpr hpos), if_neg hlb, if_pos hub]

/-- C2, counterexample.  At currentTime = MAGIC_NUMBER_OFFSET + 5 with
expirationInMs = 0 and bucketSizeMs = 20 (inputs meeting the claim's
constraints expirationInMs >= 0 and bucketSizeMs > 0), the ceiling argument
is the negative non-integer -5/2, where the source's 32-bit truncation
(toward zero) and the claim's floor differ, so computeExpirationBucket is
not the claimed floor-based formula. -/
theorem C2_computeExpirationBucket_counterexample :
    (0 : ℚ) ≤ 0 ∧ (0 : ℚ) < 20 ∧
      computeExpirationBucket (MAGIC_NUMBER_OFFSET + 5) 0 20
        ≠ computeExpirationBucketSpec (MAGIC_NUMBER_OFFSET + 5) 0 20 := by
  refine ⟨le_refl 0, by norm_num, ?_⟩
  norm_num [computeExpirationBucket, computeExpirationBucketSpec, ceiling, ceilingSpec,
    jsBitOrZero, MAGIC_NUMBER_OFFSET_eq, UNIT_SIZE]

/-- C2 (amended): whenever the ceiling argument
MAGIC_NUMBER_OFFSET - currentTime + expirationInMs / 10 is nonnegative and
its quotient by bucketSizeMs / 10 stays below 2^31 (so the 32-bit
truncation is the floor), computeExpirationBucket equals the spec's
floor-based formula MAGIC_NUMBER_OFFSET - ceiling(MAGIC_NUMBER_OFFSET -
currentTime + expirationInMs/10, bucketSizeMs/10); and in the concrete
scenario currentTime = 1000, expirationInMs = 150, bucketSizeMs = 100 the
result r satisfies expirationTimeToMs r - expirationTimeToMs 1000 in
[100, 200]. -/
theorem C2_computeExpirationBucket_amended (ct T Bq : ℚ) (hT : 0 ≤ T) (hB : 0 < Bq)
    (h0 : 0 ≤ MAGIC_NUMBER_OFFSET - ct + T / UNIT_SIZE)
    (h31 : (MAGIC_NUMBER_OFFSET - ct + T / UNIT_SIZE) / (Bq / UNIT_SIZE) < 2 ^ 31) :
    computeExpirationBucket ct T Bq = computeExpirationBucketSpec ct T Bq ∧
    (100 ≤ expirationTimeToMs (computeExpirationBucket 1000 150 100)
        - expirationTimeToMs 1000 ∧
      expirationTimeToMs (computeExpirationBucket 1000 150 100)
        - expirationTimeToMs 1000 ≤ 200) := by
  constructor
  · have hU : (0 : ℚ) < UNIT_SIZE := by rw [UNIT_SIZE_eq]; norm_num
    have hp : 0 < Bq / UNIT_SIZE := div_pos hB hU
    have hfl := jsBitOrZero_eq_floor _ (div_nonneg h0 hp.le) h31
    rw [computeExpirationBucket, computeExpirationBucketSpec, ceiling, ceilingSpec, hfl]
  · constructor <;>
      norm_num [computeExpirationBucket, ceiling, jsBitOrZero, expirationTimeToMs,
        MAGIC_NUMBER_OFFSET_eq, UNIT_SIZE]

/-- C2, witness: the amended equality instantiated at the claim's concrete
scenario currentTime = 1000, expirationInMs = 150, bucketSizeMs = 100. -/
theorem C2_computeExpirationBucket_amended_witness :
    computeExpirationBucket 1000 150 100 = computeExpirationBucketSpec 1000 150 100 ∧
    (100 ≤ expirationTimeToMs (computeExpirationBucket 1000 150 100)
        - expirationTimeToMs 1000 ∧
      expirationTimeToMs (computeExpirationBucket 1000 150 100)
        - expirationTimeToMs 1000 ≤ 200) :=
  C2_computeExpirationBucket_amended 1000 150 100 (by norm_num) (by norm_num)
    (by norm_num [MAGIC_NUMBER_OFFSET_eq, UNIT_SIZE])
    (by norm_num [MAGIC_NUMBER_OFFSET_eq, UNIT_SIZE])

/-- C3, counterexample.  The delays a = 1 < b = 2 both truncate to the same
10 ms unit, so msToExpirationTime 1 = msToExpirationTime 2 and the claimed
strict inequality msToExpirationTime a > msToExpirationTime b fails. -/
theorem C3_msToExpirationTime_counterexample :
    (0 : ℚ) ≤ 1 ∧ (1 : ℚ) < 2 ∧ ¬ msToExpirationTime 2 < msToExpirationTime 1 := by
  refine ⟨by norm_num, by norm_num, ?_⟩
  norm_num [msToExpirationTime, jsBitOrZero, UNIT_SIZE]

/-- C3 (amended): for delays 0 <= a < b with b below 2^31 * 10 (so the
32-bit truncation does not wrap), a smaller real delay produces a larger or
equal expiration value, msToExpirationTime a >= msToExpirationTime b; the
inequality is strict as soon as the delays are at least one 10 ms unit
apart (a + 10 <= b), but not in general, since delays within the same 10 ms
unit share their expiration value. -/
theorem C3_msToExpirationTime_amended (a b : ℚ) (h0 : 0 ≤ a) (hab : a < b)
    (hb : b < 2 ^ 31 * 10) :
    msToExpirationTime b ≤ msToExpirationTime a ∧
      (a + 10 ≤ b → msToExpirationTime b < msToExpirationTime a) := by
  have h10 : (0 : ℚ) < 10 := by norm_num
  have hU : (UNIT_SIZE : ℚ) = 10 := UNIT_SIZE_eq
  have hfa : jsBitOrZero (a / UNIT_SIZE) = ⌊a / UNIT_SIZE⌋ := by
    refine jsBitOrZero_eq_floor _ (div_nonneg h0 (by rw [hU]; norm_num)) ?_
    rw [hU, div_lt_iff₀ h10]; linarith
  have hfb : jsBitOrZero (b / UNIT_SIZE) = ⌊b / UNIT_SIZE⌋ := by
    refine jsBitOrZero_eq_floor _ (div_nonneg (by linarith) (by rw [hU]; norm_num)) ?_
    rw [hU, div_lt_iff₀ h10]; linarith
  constructor
  · rw [msToExpirationTime, msToExpirationTime, hfa, hfb]
    have : ⌊a / UNIT_SIZE⌋ ≤ ⌊b / UNIT_SIZE⌋ := by
      apply Int.floor_le_floor
      rw [hU, div_le_div_iff_of_pos_right h10]
      linarith
    have hc : ((⌊a / UNIT_SIZE⌋ : ℚ)) ≤ ((⌊b / UNIT_SIZE⌋ : ℚ)) := by exact_mod_cast this
    linarith
  · intro hgap
    rw [msToExpirationTime, msToExpirationTime, hfa, hfb]
    have hstep : ⌊a / UNIT_SIZE⌋ + 1 ≤ ⌊b / UNIT_SIZE⌋ := by
      rw [Int.le_floor]
      have h1 : ((⌊a / UNIT_SIZE⌋ : ℚ)) ≤ a / UNIT_SIZE := Int.floor_le _
      push_cast
      rw [hU] at h1 ⊢
      linarith
    have hc : ((⌊a / UNIT_SIZE⌋ : ℚ)) + 1 ≤ ((⌊b / UNIT_SIZE⌋ : ℚ)) := by exact_mod_cast hstep
    linarith

/-- C3, witness: the amended ordering instantiated at a = 0, b = 20, where
both the weak ordering and (the gap being a full unit) the strict ordering
hold. -/
theorem C3_msToExpirationTime_amended_witness :
    msToExpirationTime 20 ≤ msToExpirationTime 0 ∧
      ((0 : ℚ) + 10 ≤ 20 → msToExpirationTime 20 < msToExpirationTime 0) :=
  C3_msToExpirationTime_amended 0 20 (by norm_num) (by norm_num) (by norm_num)

/-- C4, counterexample.  At currentTime = 20 (nonnegative and below the
magic offset) the interactive bucket lands exactly on the Never sentinel:
computeInteractiveExpiration 20 = 1 = Never, so the inferred priority is
IdlePriority, not the claimed UserBlockingPriority (production flag,
timeout 150, bucket 100). -/
theorem C4_inferPriority_counterexample :
    (0 : ℚ) ≤ 20 ∧ (20 : ℚ) < MAGIC_NUMBER_OFFSET ∧
      inferPriorityFromExpirationTime false 20 (computeInteractiveExpiration false 20)
        = IdlePriority ∧
      IdlePriority ≠ UserBlockingPriority := by
  refine ⟨by norm_num, by rw [MAGIC_NUMBER_OFFSET_eq]; norm_num, ?_, by decide⟩
  have h : computeInteractiveExpiration false 20 = Never := by
    norm_num [computeInteractiveExpiration, computeExpirationBucket, ceiling, jsBitOrZero,
      MAGIC_NUMBER_OFFSET_eq, UNIT_SIZE, HIGH_PRIORITY_EXPIRATION,
      HIGH_PRIORITY_BATCH_SIZE, Never]
  rw [h]
  unfold inferPriorityFromExpirationTime
  rw [if_neg (by rw [Never, Sync_eq]; norm_num), if_pos rfl]

/-- C4 (amended): for every currentTime in [0, MAGIC_NUMBER_OFFSET),
whenever the interactive bucket does not land exactly on the Never
sentinel, inferring the priority of computeInteractiveExpiration gives
UserBlockingPriority (both debug and production table values); inferring
the priority of computeAsyncExpiration gives NormalPriority
unconditionally on that interval; and for every currentTime the Sync
sentinel infers ImmediatePriority and the Never sentinel IdlePriority.
Only the interactive conjunct carries the Never-exclusion: the async
bucket is a multiple of 25 below the offset and can never hit a
sentinel. -/
theorem C4_inferPriority_roundTrip_amended (dev : Bool) (ct : ℚ)
    (h0 : 0 ≤ ct) (h1 : ct < MAGIC_NUMBER_OFFSET) :
    (computeInteractiveExpiration dev ct ≠ Never →
      inferPriorityFromExpirationTime dev ct (computeInteractiveExpiration dev ct)
        = UserBlockingPriority) ∧
    inferPriorityFromExpirationTime dev ct (computeAsyncExpiration ct) = NormalPriority ∧
    (∀ t : ℚ, inferPriorityFromExpirationTime dev t Sync = ImmediatePriority) ∧
    (∀ t : ℚ, inferPriorityFromExpirationTime dev t Never = IdlePriority) := by
  rw [MAGIC_NUMBER_OFFSET_eq] at h1
  have hHpos : 0 < HIGH_PRIORITY_EXPIRATION dev := by
    cases dev <;> norm_num [HIGH_PRIORITY_EXPIRATION]
  have hHle : HIGH_PRIORITY_EXPIRATION dev ≤ 500 := by
    cases dev <;> norm_num [HIGH_PRIORITY_EXPIRATION]
  have h0i : 0 ≤ MAGIC_NUMBER_OFFSET - ct + HIGH_PRIORITY_EXPIRATION dev / UNIT_SIZE := by
    rw [UNIT_SIZE_eq, MAGIC_NUMBER_OFFSET_eq]; linarith
  have h31i : (MAGIC_NUMBER_OFFSET - ct + HIGH_PRIORITY_EXPIRATION dev / UNIT_SIZE)
      / (HIGH_PRIORITY_BATCH_SIZE / UNIT_SIZE) < 2 ^ 31 := by
    rw [UNIT_SIZE_eq, HIGH_PRIORITY_BATCH_SIZE_eq, MAGIC_NUMBER_OFFSET_eq,
      div_lt_iff₀ (by norm_num : (0 : ℚ) < 100 / 10)]
    norm_num
    linarith
  obtain ⟨⟨hloI, hhiI⟩, fI, hfI0, hfeI⟩ :=
    msUntil_of_bucket ct (HIGH_PRIORITY_EXPIRATION dev) HIGH_PRIORITY_BATCH_SIZE
      (by norm_num [HIGH_PRIORITY_BATCH_SIZE]) h0i h31i
  have hint : computeInteractiveExpiration dev ct
      = computeExpirationBucket ct (HIGH_PRIORITY_EXPIRATION dev) HIGH_PRIORITY_BATCH_SIZE := rfl
  have hfcI : (0 : ℚ) ≤ (fI : ℚ) := by exact_mod_cast hfI0
  have hSyncI : computeExpirationBucket ct (HIGH_PRIORITY_EXPIRATION dev)
      HIGH_PRIORITY_BATCH_SIZE ≠ Sync := by
    rw [hfeI]
    intro hcon
    rw [Sync_eq, MAGIC_NUMBER_OFFSET_eq, UNIT_SIZE_eq, HIGH_PRIORITY_BATCH_SIZE_eq] at hcon
    norm_num at hcon
    linarith
  have h0a : 0 ≤ MAGIC_NUMBER_OFFSET - ct + LOW_PRIORITY_EXPIRATION / UNIT_SIZE := by
    rw [UNIT_SIZE_eq, LOW_PRIORITY_EXPIRATION_eq, MAGIC_NUMBER_OFFSET_eq]; linarith
  have h31a : (MAGIC_NUMBER_OFFSET - ct + LOW_PRIORITY_EXPIRATION / UNIT_SIZE)
      / (LOW_PRIORITY_BATCH_SIZE / UNIT_SIZE) < 2 ^ 31 := by
    rw [UNIT_SIZE_eq, LOW_PRIORITY_BATCH_SIZE_eq, LOW_PRIORITY_EXPIRATION_eq,
      MAGIC_NUMBER_OFFSET_eq, div_lt_iff₀ (by norm_num : (0 : ℚ) < 250 / 10)]
    norm_num
    linarith
  obtain ⟨⟨hloA, hhiA⟩, fA, hfA0, hfeA⟩ :=
    msUntil_of_bucket ct LOW_PRIORITY_EXPIRATION LOW_PRIORITY_BATCH_SIZE
      (by norm_num [LOW_PRIORITY_BATCH_SIZE]) h0a h31a
  have hasync : computeAsyncExpiration ct
      = computeExpirationBucket ct LOW_PRIORITY_EXPIRATION LOW_PRIORITY_BATCH_SIZE := rfl
  have hfcA : (0 : ℚ) ≤ (fA : ℚ) := by exact_mod_cast hfA0
  have hSyncA : computeExpirationBucket ct LOW_PRIORITY_EXPIRATION
      LOW_PRIORITY_BATCH_SIZE ≠ Sync := by
    rw [hfeA]
    intro hcon
    rw [Sync_eq, MAGIC_NUMBER_OFFSET_eq, UNIT_SIZE_eq, LOW_PRIORITY_BATCH_SIZE_eq] at hcon
    norm_num at hcon
    linarith
  have hNevA : computeExpirationBucket ct LOW_PRIORITY_EXPIRATION
      LOW_PRIORITY_BATCH_SIZE ≠ Never := by
    rw [hfeA]
    intro hcon
    rw [MAGIC_NUMBER_OFFSET_eq, UNIT_SIZE_eq, LOW_PRIORITY_BATCH_SIZE_eq, Never] at hcon
    have hq : ((fA : ℚ) + 1) * 25 = 1073741820 := by linarith
    have hz : (fA + 1) * 25 = 1073741820 := by exact_mod_cast hq
    omega
  have hLpos : (0 : ℚ) < LOW_PRIORITY_EXPIRATION := by norm_num [LOW_PRIORITY_EXPIRATION]
  have hlbA : ¬ expirationTimeToMs (computeExpirationBucket ct LOW_PRIORITY_EXPIRATION
        LOW_PRIORITY_BATCH_SIZE) - expirationTimeToMs ct
      ≤ HIGH_PRIORITY_EXPIRATION dev + HIGH_PRIORITY_BATCH_SIZE := by
    exact not_le.mpr
      (by linarith [hloA, hHle, LOW_PRIORITY_EXPIRATION_eq, HIGH_PRIORITY_BATCH_SIZE_eq])
  refine ⟨?_, ?_, ?_, ?_⟩
  · intro hnev
    rw [hint]
    exact inferPriority_userBlocking_of dev ct _ hSyncI (hint ▸ hnev) (by linarith) hhiI
  · rw [hasync]
    exact inferPriority_normal_of dev ct _ hSyncA hNevA hlbA (by linarith) hhiA
  · intro t
    unfold inferPriorityFromExpirationTime
    rw [if_pos rfl]
  · intro t
    unfold inferPriorityFromExpirationTime
    rw [if_neg (by rw [Never, Sync_eq]; norm_num), if_pos rfl]

/-- C4, witness: the amended round trip instantiated at production flag and
currentTime = 1000, whose interactive bucket (981) is not the Never
sentinel, so the interactive implication discharges too. -/
theorem C4_inferPriority_roundTrip_amended_witness :
    inferPriorityFromExpirationTime false 1000 (computeInteractiveExpiration false 1000)
        = UserBlockingPriority ∧
    inferPriorityFromExpirationTime false 1000 (computeAsyncExpiration 1000)
        = NormalPriority ∧
    (∀ t : ℚ, inferPriorityFromExpirationTime false t Sync = ImmediatePriority) ∧
    (∀ t : ℚ, inferPriorityFromExpirationTime false t Never = IdlePriority) := by
  have h := C4_inferPriority_roundTrip_amended false 1000 (by norm_num)
    (by rw [MAGIC_NUMBER_OFFSET_eq]; norm_num)
  exact ⟨h.1 (by norm_num [computeInteractiveExpiration, computeExpirationBucket, ceiling,
      jsBitOrZero, MAGIC_NUMBER_OFFSET_eq, UNIT_SIZE, HIGH_PRIORITY_EXPIRATION,
      HIGH_PRIORITY_BATCH_SIZE, Never]),
    h.2.1, h.2.2.1, h.2.2.2⟩

end ReactFiberExpirationTime

namespace SchedulerHostConfig

/-- requestHostCallback stores the given callback and timeout whatever
branch it then takes. -/
theorem requestHostCallback_sets (s0 : HostState C) (cb : C) (t : ℚ) :
    (requestHostCallback s0 cb t).1.scheduledHostCallback = some cb ∧
      (requestHostCallback s0 cb t).1.timeoutTime = t := by
  unfold requestHostCallback
  dsimp only
  split_ifs <;> exact ⟨rfl, rfl⟩

/-- When the message handler reports an invocation, the invoked callback is
the one that was stored, and the final state has the flushing guard cleared
and the pending callback consumed. -/
theorem portOnMessage_invoked_inv (inv : C → Bool → Except Unit Unit)
    (s0 : HostState C) (ct : ℚ) (cb : C) (d : Bool) (r : Except Unit Unit)
    (h : (portOnMessage inv s0 ct).2 = TickOutcome.invoked cb d r) :
    s0.scheduledHostCallback = some cb ∧
      (portOnMessage inv s0 ct).1.isFlushingHostCallback = false ∧
      (portOnMessage inv s0 ct).1.scheduledHostCallback = none := by
  cases hsc : s0.scheduledHostCallback with
  | none =>
    exfalso
    simp only [portOnMessage, hsc] at h
    split_ifs at h
  | some c =>
    simp only [portOnMessage, hsc] at h ⊢
    split_ifs at h ⊢ with hc
    simp_all

/-- The clamp-then-max of the source's adaptive update is the max of the two
frame lengths floored at 8. -/
theorem clampMax_eq (next prev : ℚ) :
    (if (if next < 8 then (8 : ℚ) else next) < prev then prev
      else if next < 8 then (8 : ℚ) else next) = max (max next prev) 8 := by
  by_cases h8 : next < 8
  · rw [if_pos h8]
    by_cases hp : (8 : ℚ) < prev
    · rw [if_pos hp, max_eq_right (le_of_lt (lt_trans h8 hp)),
        max_eq_left (le_of_lt hp)]
    · push_neg at hp
      rw [if_neg (not_lt.mpr hp), max_eq_right (max_le h8.le hp)]
  · push_neg at h8
    rw [if_neg (not_lt.mpr h8)]
    by_cases hp : next < prev
    · rw [if_pos hp, max_eq_right hp.le, max_eq_left (le_trans h8 hp.le)]
    · push_neg at hp
      rw [if_neg (not_lt.mpr hp), max_eq_left hp, max_eq_left h8]

end SchedulerHostConfig

namespace SchedulerHostConfig

/-- C1: in frame-negotiation mode (window and MessageChannel available),
shouldYieldToHost returns true exactly when the clock reading is at or past
frameDeadline, for every driver state; in the degraded fallback mode,
shouldYieldToHost is constantly false. -/
theorem C1_shouldYieldToHost_spec :
    (∀ (C : Type) (s : HostState C) (now : ℚ),
      shouldYieldToHost s now = true ↔ s.frameDeadline ≤ now) ∧
    SchedulerFallback.shouldYieldToHost = false := by
  refine ⟨fun C s now => ?_, rfl⟩
  simp [shouldYieldToHost]

/-- C5: firing the message handler with a pending callback invokes it with
didTimeout = true exactly when the slice budget is exhausted
(frameDeadline - currentTime <= 0) and the stored timeout has passed
(timeoutTime different from -1 and timeoutTime <= currentTime); when the
budget is exhausted but the timeout has not passed, the callback and its
timeout are restored to pending state without being invoked and an
animation frame ends up armed; otherwise the callback is invoked with
didTimeout = false. -/
theorem C5_portOnMessage_spec (C : Type) (inv : C → Bool → Except Unit Unit)
    (s : HostState C) (ct : ℚ) (cb : C)
    (hcb : s.scheduledHostCallback = some cb) :
    (s.frameDeadline - ct ≤ 0 ∧ s.timeoutTime ≠ -1 ∧ s.timeoutTime ≤ ct →
      (portOnMessage inv s ct).2 = TickOutcome.invoked cb true (inv cb true)) ∧
    (s.frameDeadline - ct ≤ 0 ∧ ¬(s.timeoutTime ≠ -1 ∧ s.timeoutTime ≤ ct) →
      (portOnMessage inv s ct).2 = TickOutcome.deferred ∧
      (portOnMessage inv s ct).1.scheduledHostCallback = some cb ∧
      (portOnMessage inv s ct).1.timeoutTime = s.timeoutTime ∧
      (portOnMessage inv s ct).1.isAnimationFrameScheduled = true) ∧
    (0 < s.frameDeadline - ct →
      (portOnMessage inv s ct).2 = TickOutcome.invoked cb false (inv cb false)) := by
  refine ⟨fun h => ?_, fun h => ?_, fun h => ?_⟩
  · obtain ⟨h1, h2, h3⟩ := h
    simp only [portOnMessage, hcb]
    rw [if_neg (fun hc => hc.2 ⟨h2, h3⟩)]
    rw [decide_eq_true h1]
  · obtain ⟨h1, hn⟩ := h
    simp only [portOnMessage, hcb]
    rw [if_pos ⟨h1, hn⟩]
    refine ⟨rfl, rfl, rfl, ?_⟩
    by_cases ha : s.isAnimationFrameScheduled <;> simp [ha]
  · simp only [portOnMessage, hcb]
    rw [if_neg (fun hc => absurd hc.1 (not_le.mpr h))]
    rw [decide_eq_false (not_le.mpr h)]

/-- C5, witness: a state with a pending callback and time still left in the
slice (frameDeadline 10, clock 3) invokes the callback with
didTimeout = false. -/
theorem C5_portOnMessage_spec_witness :
    (portOnMessage (fun (_ : ℕ) (_ : Bool) => Except.ok ())
        { initialState ℕ with scheduledHostCallback := some 7, frameDeadline := 10 } 3).2
      = TickOutcome.invoked 7 false (Except.ok ()) :=
  (C5_portOnMessage_spec ℕ _ _ 3 7 rfl).2.2 (by norm_num [initialState])

/-- C6: on an animation tick with a callback still pending, nextFrameTime
is rafTime - frameDeadline + activeFrameTime; when fpsLocked is false and
both nextFrameTime and previousFrameTime are strictly below activeFrameTime,
activeFrameTime becomes max(nextFrameTime, previousFrameTime) floored at 8
and previousFrameTime is left unchanged; otherwise previousFrameTime is set
to nextFrameTime and activeFrameTime is unchanged; in all cases
frameDeadline becomes rafTime plus the (new) activeFrameTime. -/
theorem C6_animationTick_spec (C : Type) (s : HostState C) (raf : ℚ) (cb : C)
    (hcb : s.scheduledHostCallback = some cb) :
    ((¬s.fpsLocked ∧ raf - s.frameDeadline + s.activeFrameTime < s.activeFrameTime ∧
        s.previousFrameTime < s.activeFrameTime) →
      (animationTick s raf).1.activeFrameTime
          = max (max (raf - s.frameDeadline + s.activeFrameTime) s.previousFrameTime) 8 ∧
        (animationTick s raf).1.previousFrameTime = s.previousFrameTime) ∧
    (¬(¬s.fpsLocked ∧ raf - s.frameDeadline + s.activeFrameTime < s.activeFrameTime ∧
        s.previousFrameTime < s.activeFrameTime) →
      (animationTick s raf).1.previousFrameTime
          = raf - s.frameDeadline + s.activeFrameTime ∧
        (animationTick s raf).1.activeFrameTime = s.activeFrameTime) ∧
    (animationTick s raf).1.frameDeadline = raf + (animationTick s raf).1.activeFrameTime := by
  have hcond : (raf - s.frameDeadline + s.activeFrameTime < s.activeFrameTime ∧
      s.previousFrameTime < s.activeFrameTime ∧ ¬s.fpsLocked) ↔
      (¬s.fpsLocked ∧ raf - s.frameDeadline + s.activeFrameTime < s.activeFrameTime ∧
        s.previousFrameTime < s.activeFrameTime) := by tauto
  refine ⟨fun h => ?_, fun h => ?_, ?_⟩
  · simp only [animationTick, hcb]
    rw [if_pos (hcond.mpr h)]
    constructor
    · by_cases hm : s.isMessageEventScheduled <;> simp [hm, clampMax_eq]
    · by_cases hm : s.isMessageEventScheduled <;> simp [hm]
  · simp only [animationTick, hcb]
    rw [if_neg (fun hc => h (hcond.mp hc))]
    constructor
    · by_cases hm : s.isMessageEventScheduled <;> simp [hm]
    · by_cases hm : s.isMessageEventScheduled <;> simp [hm]
  · simp only [animationTick, hcb]
    by_cases hc : raf - s.frameDeadline + s.activeFrameTime < s.activeFrameTime ∧
        s.previousFrameTime < s.activeFrameTime ∧ ¬s.fpsLocked
    · rw [if_pos hc]
      by_cases hm : s.isMessageEventScheduled <;> simp [hm]
    · rw [if_neg hc]
      by_cases hm : s.isMessageEventScheduled <;> simp [hm]

/-- C6, witness: a pending callback with rafTime 100, frameDeadline 0 and
the default 33-unit frame length takes the non-adaptive branch, and the new
frameDeadline is rafTime plus the new activeFrameTime. -/
theorem C6_animationTick_spec_witness :
    (animationTick { initialState ℕ with scheduledHostCallback := some 7 } 100).1.frameDeadline
      = 100 + (animationTick { initialState ℕ with
          scheduledHostCallback := some 7 } 100).1.activeFrameTime :=
  (C6_animationTick_spec ℕ _ 100 7 rfl).2.2

/-- C7, counterexample.  In the degraded fallback mode, a second
requestHostCallback made while a callback is stored does not replace it:
after requesting callback 0 and then callback 1, the stored callback is
still 0 (not 1), and the flush invokes 0, so the first callback does fire
and the second does not replace it. -/
theorem C7_requestHostCallback_counterexample :
    (SchedulerFallback.requestHostCallback (some 0) 1 (some 5)).1 = some 0 ∧
    (0 : ℕ) ≠ 1 ∧
    (SchedulerFallback._flushCallback (fun (_ : ℕ) (_ : Bool) => Except.ok ())
        (SchedulerFallback.requestHostCallback (some 0) 1 (some 5)).1 false).2
      = some (0, Except.ok ()) :=
  ⟨rfl, by decide, rfl⟩

/-- C7 (amended): in frame-negotiation mode, two requestHostCallback calls
made before either callback fires leave at most one callback pending: the
second call replaces the first callback and its timeout, and any message
tick that invokes a callback from the resulting state invokes the second
one, never the first.  In the degraded fallback mode a second call instead
defers its registration and the first callback still fires. -/
theorem C7_requestHostCallback_replaces (C : Type) (s : HostState C)
    (f1 f2 : C) (t1 t2 : ℚ) :
    ((requestHostCallback (requestHostCallback s f1 t1).1 f2 t2).1).scheduledHostCallback
        = some f2 ∧
    ((requestHostCallback (requestHostCallback s f1 t1).1 f2 t2).1).timeoutTime = t2 ∧
    (∀ (inv : C → Bool → Except Unit Unit) (ct : ℚ) (cb : C) (d : Bool)
        (r : Except Unit Unit),
      (portOnMessage inv (requestHostCallback (requestHostCallback s f1 t1).1 f2 t2).1
          ct).2 = TickOutcome.invoked cb d r → cb = f2) := by
  obtain ⟨h1, h2⟩ := requestHostCallback_sets (requestHostCallback s f1 t1).1 f2 t2
  refine ⟨h1, h2, fun inv ct cb d r h => ?_⟩
  have := (portOnMessage_invoked_inv inv _ ct cb d r h).1
  rw [h1] at this
  exact (Option.some.injEq _ _ ▸ this).symm

/-- C9: whenever a message tick invokes the callback, even one whose
invocation ends in a thrown error, the state handed back when the tick
returns has the isFlushingHostCallback guard cleared and the callback slot
consumed; in the fallback mode, _flushCallback clears the stored _callback
reference on every exit path, throwing callbacks included. -/
theorem C9_flush_guard_cleared :
    (∀ (C : Type) (inv : C → Bool → Except Unit Unit) (s : HostState C) (ct : ℚ)
        (cb : C) (d : Bool) (r : Except Unit Unit),
      (portOnMessage inv s ct).2 = TickOutcome.invoked cb d r →
        (portOnMessage inv s ct).1.isFlushingHostCallback = false ∧
        (portOnMessage inv s ct).1.scheduledHostCallback = none) ∧
    (∀ (C : Type) (inv : C → Bool → Except Unit Unit) (c0 : C) (d : Bool),
      (SchedulerFallback._flushCallback inv (some c0) d).1 = none) :=
  ⟨fun C inv s ct cb d r h => (portOnMessage_invoked_inv inv s ct cb d r h).2,
    fun C inv c0 d => rfl⟩

/-- C8: forceFrameRate with 0 < fps <= 125 pins activeFrameTime to
floor(1000 / fps) and sets fpsLocked; fps = 0 resets activeFrameTime to 33
and unlocks; fps < 0 or fps > 125 is rejected and every part of the state
is unchanged; in particular forceFrameRate 60 yields activeFrameTime 16. -/
theorem C8_forceFrameRate_spec (C : Type) (s : HostState C) (fps : ℚ) :
    (0 < fps → fps ≤ 125 →
      forceFrameRate s fps
        = { s with activeFrameTime := (⌊1000 / fps⌋ : ℚ), fpsLocked := true }) ∧
    (fps = 0 →
      forceFrameRate s fps = { s with activeFrameTime := 33, fpsLocked := false }) ∧
    (fps < 0 ∨ 125 < fps → forceFrameRate s fps = s) ∧
    (forceFrameRate s 60).activeFrameTime = 16 := by
  refine ⟨fun hp hle => ?_, fun h0 => ?_, fun hout => ?_, ?_⟩
  · rw [forceFrameRate, if_neg (not_or.mpr ⟨not_lt.mpr hp.le, not_lt.mpr hle⟩), if_pos hp]
  · subst h0
    rw [forceFrameRate, if_neg (by norm_num), if_neg (by norm_num)]
  · rw [forceFrameRate, if_pos hout]
  · rw [forceFrameRate, if_neg (by norm_num), if_pos (by norm_num)]
    show (⌊(1000 : ℚ) / 60⌋ : ℚ) = 16
    norm_num

end SchedulerHostConfig

namespace SchedulerFallback

/-- C10: in the degraded fallback mode, requestHostCallback made while a
callback is already stored leaves the stored callback in place (it will
still be flushed) and only arms the zero-delay re-registration timer, which
re-invokes requestHostCallback with the callback alone: the ms timeout of
the deferred registration is dropped (the re-registration carries none,
i.e. an undefined timeout), whatever ms the deferred call had. -/
theorem C10_fallback_request_defers (C : Type) (s : Option C) (cb c0 : C)
    (ms : Option ℚ) (h : s = some c0) :
    requestHostCallback s cb ms = (some c0, FallbackTimer.reRegister cb none) ∧
    (∀ (inv : C → Bool → Except Unit Unit) (d : Bool),
      (_flushCallback inv s d).2 = some (c0, inv c0 d)) := by
  subst h
  exact ⟨rfl, fun inv d => rfl⟩

/-- C10, witness: with callback 3 stored, requesting callback 4 with
timeout 9 leaves 3 stored and arms a re-registration of 4 with no timeout;
the flush still fires 3. -/
theorem C10_fallback_request_defers_witness :
    requestHostCallback (some 3) 4 (some 9)
        = (some 3, FallbackTimer.reRegister 4 none) ∧
    (∀ (inv : ℕ → Bool → Except Unit Unit) (d : Bool),
      (_flushCallback inv (some 3) d).2 = some (3, inv 3 d)) :=
  C10_fallback_request_defers ℕ (some 3) 4 3 (some 9) rfl

end SchedulerFallback
